import Mathlib

/-!
Shallow embedding of the qvantum_hass integration core
(custom_components/qvantum_hass/api.py and __init__.py).

Python JSON values are modelled by the inductive `JVal`; Python exceptions of
the API-error taxonomy (QvantumApiError / AuthenticationError /
ApiConnectionError) are modelled by `ApiErr`, and fallible operations return
`Except ApiErr _`.  Network I/O is modelled by environments that record the
outcome of each outbound call; the embedded functions additionally return the
trace of calls they issue, so call-counting properties are statable.

API responses that the Python code performs dict operations on
(`.get`, key lookup) are modelled at the JSON-object shape the vendor API
returns (association lists `List (String × JVal)`); integer-valued fields such
as writeAccessLevel are read with a typed accessor, matching the API schema.
Timestamps are modelled as integer seconds on a single abstract clock.
-/

namespace Qvantum

/-- A Python/JSON value: None, bool, int, string, list or dict
(dicts as association lists, preserving insertion order). -/
inductive JVal where
  | null : JVal
  | bool : Bool → JVal
  | int : Int → JVal
  | str : String → JVal
  | arr : List JVal → JVal
  | obj : List (String × JVal) → JVal

/-- Python truthiness of a value: None, False, 0, empty string/list/dict are
falsy, everything else is truthy. -/
def JVal.truthy : JVal → Bool
  | .null => false
  | .bool b => b
  | .int n => n != 0
  | .str s => s ≠ ""
  | .arr xs => !xs.isEmpty
  | .obj kvs => !kvs.isEmpty

/-- First value bound to key `k` in an association list (Python dict lookup). -/
def lookupKV (kvs : List (String × JVal)) (k : String) : Option JVal :=
  match kvs with
  | [] => none
  | (k', v) :: rest => if k' = k then some v else lookupKV rest k

/-- Python `d[k] = v` on a dict modelled as an association list: replaces the
value at an existing key, otherwise appends the new binding. -/
def setKey (kvs : List (String × JVal)) (k : String) (v : JVal) : List (String × JVal) :=
  match kvs with
  | [] => [(k, v)]
  | (k', v') :: rest => if k' = k then (k', v) :: rest else (k', v') :: setKey rest k v

/-- Dict field access `v[k]` / `v.get(k)` for object values
(`none` for non-objects; the modelled flows only reach this on objects). -/
def JVal.index (v : JVal) (k : String) : Option JVal :=
  match v with
  | .obj kvs => lookupKV kvs k
  | _ => none

/-- `d.get(k, default)` where the field is an integer per the API schema
(used for writeAccessLevel, which the code compares with `>= 20`). -/
def getIntD (kvs : List (String × JVal)) (k : String) (d : Int) : Int :=
  match lookupKV kvs k with
  | some (.int n) => n
  | _ => d

/-- Whether list `pre` is a prefix of list `l` (over characters). -/
def leadsWith : List Char → List Char → Bool
  | [], _ => true
  | _ :: _, [] => false
  | a :: as, b :: bs => a == b && leadsWith as bs

/-- Whether `needle` occurs as a contiguous run inside `hay`
(character lists). -/
def containsSeqL (needle : List Char) : List Char → Bool
  | [] => needle.isEmpty
  | hay@(_ :: rest) => leadsWith needle hay || containsSeqL needle rest

/-- Python `needle in hay` on strings: substring containment. -/
def containsSeq (needle hay : String) : Bool :=
  containsSeqL needle.data hay.data

/-- Python `x in v` as used by the code (`"response" in response`):
key membership for dicts, element equality for lists of strings, substring
test for strings.  (On other values Python raises TypeError; the modelled
responses are dicts.) -/
def pyContainsKey (v : JVal) (k : String) : Bool :=
  match v with
  | .obj kvs => (lookupKV kvs k).isSome
  | .arr xs => xs.any fun x => match x with | .str s => s == k | _ => false
  | .str s => containsSeq k s
  | _ => false

/-- The API error taxonomy of api.py: AuthenticationError, ApiConnectionError
and the generic QvantumApiError; all three are (sub)classes of
QvantumApiError, so an `except QvantumApiError` catches every `ApiErr`. -/
inductive ApiErr where
  | auth : String → ApiErr
  | conn : String → ApiErr
  | api : String → ApiErr

/-- `str(err)`: the message the error was raised with. -/
def ApiErr.msg : ApiErr → String
  | .auth m => m
  | .conn m => m
  | .api m => m

/-- Whether an `Except` outcome is a success. -/
def isOkE {ε α : Type} : Except ε α → Bool
  | .ok _ => true
  | .error _ => false

/-! ## Value coercion in set_setting (api.py lines 430-435)

```
try:
    if isinstance(value, str) and value.lstrip("-").isdigit():
        value = int(value)
except (ValueError, AttributeError):
    pass
```
-/

/-- Python `s.lstrip("-")` on the character list: drop every leading dash. -/
def dropDashes : List Char → List Char
  | [] => []
  | c :: rest => if c = '-' then dropDashes rest else c :: rest

/-- Decimal value of a digit list (most significant first). -/
def digitsToNat : List Char → Nat
  | [] => 0
  | c :: rest => digitsToNat rest + c.toNat.sub 48 * 10 ^ rest.length

/-- Python `int(s)` restricted to the shapes reachable here (an optional sign
followed by characters): succeeds on an optional single leading sign followed
by one or more digits, fails (ValueError) otherwise. -/
def pyToIntChars : List Char → Option Int
  | [] => none
  | c :: ds =>
    if c = '-' then
      if !ds.isEmpty && ds.all Char.isDigit then some (-(digitsToNat ds : Int)) else none
    else if c = '+' then
      if !ds.isEmpty && ds.all Char.isDigit then some (digitsToNat ds : Int) else none
    else
      if (c :: ds).all Char.isDigit then some (digitsToNat (c :: ds) : Int) else none

/-- The best-effort value coercion performed at the top of set_setting:
if the value is a string whose dash-stripped form is nonempty and all digits,
attempt `int(value)`; a ValueError from the conversion is swallowed and the
value is left unchanged.  Non-strings are left unchanged. -/
def coerce_setting_value (v : JVal) : JVal :=
  match v with
  | .str s =>
    let stripped := dropDashes s.data
    if !stripped.isEmpty && stripped.all Char.isDigit then
      match pyToIntChars s.data with
      | some n => .int n
      | none => v
    else v
  | _ => v

/-- Claim C10 worded as a function: a string consisting of an optional single
leading dash followed by one or more digits becomes the corresponding
integer; every other value is unchanged. -/
def coerce_setting_value_spec (v : JVal) : JVal :=
  match v with
  | .str s =>
    match s.data with
    | [] => v
    | c :: ds =>
      if c = '-' then
        if !ds.isEmpty && ds.all Char.isDigit then .int (-(digitsToNat ds : Int)) else v
      else
        if (c :: ds).all Char.isDigit then .int (digitsToNat (c :: ds) : Int) else v
  | _ => v

/-! ## set_extra_hot_water (api.py lines 532-587) -/

/-- Hinnant-style civil-from-days conversion together with the time of day:
split an epoch-style timestamp (seconds on the naive local clock used by
`datetime.now()`) into (year, month, day, hour, minute, second). -/
def civilOfSeconds (sec : Int) : Int × Int × Int × Int × Int × Int :=
  let days := Int.ediv sec 86400
  let sod := Int.emod sec 86400
  let z := days + 719468
  let era := Int.ediv (if z ≥ 0 then z else z - 146096) 146097
  let doe := z - era * 146097
  let yoe := Int.ediv (doe - Int.ediv doe 1460 + Int.ediv doe 36524 - Int.ediv doe 146096) 365
  let y := yoe + era * 400
  let doy := doe - (365 * yoe + Int.ediv yoe 4 - Int.ediv yoe 100)
  let mp := Int.ediv (5 * doy + 2) 153
  let d := doy - Int.ediv (153 * mp + 2) 5 + 1
  let m := mp + (if mp < 10 then 3 else -9)
  let year := y + (if m ≤ 2 then 1 else 0)
  (year, m, d, Int.ediv sod 3600, Int.emod (Int.ediv sod 60) 60, Int.emod sod 60)

/-- Zero-pad a (nonnegative) number to two digits. -/
def pad2 (n : Int) : String :=
  if n < 10 then "0" ++ toString n else toString n

/-- Zero-pad a (nonnegative) number to four digits (strftime %Y). -/
def pad4 (n : Int) : String :=
  if n < 10 then "000" ++ toString n
  else if n < 100 then "00" ++ toString n
  else if n < 1000 then "0" ++ toString n
  else toString n

/-- `stop_time.strftime("%Y-%m-%dT%H:%M:%S.000Z")`: the fixed-format
timestamp serialization used for stopTime. -/
def strftimeZ (sec : Int) : String :=
  match civilOfSeconds sec with
  | (y, mo, d, h, mi, s) =>
    pad4 y ++ "-" ++ pad2 mo ++ "-" ++ pad2 d ++ "T" ++ pad2 h ++ ":" ++ pad2 mi
      ++ ":" ++ pad2 s ++ ".000Z"

/-- The wrapped command payload posted by set_extra_hot_water, as a function
of the clock reading `now` (seconds) and the arguments.  Mirrors the
three-way branch of api.py lines 552-584. -/
def set_extra_hot_water_payload (now : Int) (hours : Int) (indefinite : Bool) : JVal :=
  let command_payload :=
    if hours == 0 && !indefinite then
      JVal.obj [("set_additional_hot_water", JVal.obj
        [("stopTime", JVal.null), ("indefinite", JVal.bool false), ("cancel", JVal.bool true)])]
    else if indefinite then
      JVal.obj [("set_additional_hot_water", JVal.obj
        [("stopTime", JVal.null), ("indefinite", JVal.bool true), ("cancel", JVal.bool false)])]
    else
      let stop_time_str := strftimeZ (now + 3600 * hours)
      JVal.obj [("set_additional_hot_water", JVal.obj
        [("stopTime", JVal.str stop_time_str), ("indefinite", JVal.bool false),
         ("cancel", JVal.bool false)])]
  JVal.obj [("command", command_payload)]

/-! ## HTTP request helpers (api.py lines 119-268)

The transport outcome of one `requests` call is either a timeout, a request
failure with no attached response (connection-level), or an HTTP response
with a status code, a raw body text and its JSON parse (none when the body is
not valid JSON, in particular when it is empty).  `raise_for_status` raises
`HTTPError` (carrying the response) for status codes 400-599; a failing
`response.json()` raises a `JSONDecodeError`, which is a `RequestException`
with no attached response, so the handlers below classify it as a generic
API error. -/

/-- An HTTP response: status code, body text, and the JSON parse of the body
(`none` when the body does not parse, e.g. when it is empty). -/
structure HttpResp where
  status : Nat
  text : String
  jsonBody : Option JVal

/-- Outcome of the underlying `requests.get/post/patch` call. -/
inductive Transport where
  | timeout : String → Transport
  | reqFail : String → Transport
  | response : HttpResp → Transport

/-- Message attached to the generic error raised when a 2xx body fails to
parse as JSON (api.py falls through to the final `raise QvantumApiError`
branch because the decode error carries no response). -/
def jsonFailMsg : String := "API error: invalid JSON body"

/-- Error classification shared by the request helpers once
`raise_for_status` has raised: 401 becomes AuthenticationError, >= 500
becomes ApiConnectionError tagged Server error, anything else the generic
QvantumApiError. -/
def classifyHttpError (r : HttpResp) : ApiErr :=
  if r.status == 401 then .auth "Authentication failed"
  else if r.status ≥ 500 then .conn ("Server error " ++ toString r.status)
  else .api ("API error: HTTP " ++ toString r.status)

/-- Body handling of _get_request and _patch_request on a non-error response:
`return response.json()` with a decode failure classified as a generic API
error. -/
def parseJsonBody (r : HttpResp) : Except ApiErr JVal :=
  match r.jsonBody with
  | some v => .ok v
  | none => .error (.api jsonFailMsg)

/-- _get_request (api.py lines 119-154) and _patch_request (193-228), given
the transport outcome of the single HTTP call they make (tokens are ensured
valid before the call; that step is modelled separately by
ensure_tokens_valid). -/
def get_request (t : Transport) : Except ApiErr JVal :=
  match t with
  | .timeout m => .error (.conn ("Request timeout: " ++ m))
  | .reqFail m => .error (.api ("API error: " ++ m))
  | .response r =>
    if 400 ≤ r.status ∧ r.status < 600 then .error (classifyHttpError r)
    else parseJsonBody r

/-- _patch_request has the same response handling as _get_request. -/
def patch_request (t : Transport) : Except ApiErr JVal :=
  get_request t

/-- _post_request (api.py lines 230-268): identical classification, except
that a non-error response with an empty body yields `{}` instead of a JSON
parse (api.py lines 245-248). -/
def post_request (t : Transport) : Except ApiErr JVal :=
  match t with
  | .timeout m => .error (.conn ("Request timeout: " ++ m))
  | .reqFail m => .error (.api ("API error: " ++ m))
  | .response r =>
    if 400 ≤ r.status ∧ r.status < 600 then .error (classifyHttpError r)
    else if r.text ≠ "" then parseJsonBody r
    else .ok (.obj [])

/-! ## Token lifecycle (api.py lines 97-117, 270-371) -/

/-- The token set held by the client (`self.tokens`).  The server reports the
lifetime as expiresIn; api.py converts it with `int(...)`, so it is modelled
as an integer number of seconds. -/
structure Tokens where
  idToken : String
  refreshToken : String
  expiresIn : Int

/-- The mutable token state of a QvantumApi instance:
`self.tokens` and `self.token_expiry` (None before first acquisition). -/
structure TokenState where
  tokens : Option Tokens
  token_expiry : Option Int

/-- Body of a successful refresh-token exchange (snake_case fields of the
token endpoint), as merged into `self.tokens` by _refresh_access_token. -/
structure RefreshData where
  id_token : String
  refresh_token : String
  expires_in : Int

/-- Environment of one ensure_tokens_valid call: the clock reading and the
outcomes the network would give to a refresh-token exchange and to a full
sign-in, were they attempted. -/
structure TokenEnv where
  now : Int
  refreshOutcome : Except ApiErr RefreshData
  authOutcome : Except ApiErr Tokens

/-- Network calls the token manager can make. -/
inductive AuthCall where
  | refreshExchange : AuthCall
  | signIn : AuthCall
deriving DecidableEq

/-- The acquisition performed inside the staleness branch of
_ensure_tokens_valid (api.py lines 104-111): when a token set exists, a
refresh exchange, falling back to a full sign-in only when the refresh
raises AuthenticationError (a connection or other API error propagates);
when no token set exists, a full sign-in directly. -/
def acquire_tokens (env : TokenEnv) (hasTokens : Bool) :
    List AuthCall × Except ApiErr Tokens :=
  if hasTokens then
    match env.refreshOutcome with
    | .ok rd =>
      ([.refreshExchange],
        .ok { idToken := rd.id_token, refreshToken := rd.refresh_token,
              expiresIn := rd.expires_in })
    | .error (.auth _) =>
      match env.authOutcome with
      | .ok t => ([.refreshExchange, .signIn], .ok t)
      | .error e => ([.refreshExchange, .signIn], .error e)
    | .error e => ([.refreshExchange], .error e)
  else
    match env.authOutcome with
    | .ok t => ([.signIn], .ok t)
    | .error e => ([.signIn], .error e)

/-- _ensure_tokens_valid (api.py lines 97-117): if tokens are missing or the
expiry-with-margin timestamp has passed, acquire tokens (see
acquire_tokens) and recompute the expiry as now + expiresIn - 60 (api.py
lines 115-117).  Returns the trace of network calls and either the new
state or the propagated error. -/
def ensure_tokens_valid (env : TokenEnv) (st : TokenState) :
    List AuthCall × Except ApiErr TokenState :=
  let stale :=
    match st.tokens, st.token_expiry with
    | none, _ => true
    | _, none => true
    | some _, some e => env.now ≥ e
  if stale then
    match acquire_tokens env st.tokens.isSome with
    | (tr, .ok t) =>
      (tr, .ok { tokens := some t, token_expiry := some (env.now + t.expiresIn - 60) })
    | (tr, .error e) => (tr, .error e)
  else ([], .ok st)

/-- Number of refresh-token exchanges in a trace. -/
def countRefresh (tr : List AuthCall) : Nat :=
  (tr.filter fun c => c == .refreshExchange).length

/-- Number of full sign-ins in a trace. -/
def countSignIn (tr : List AuthCall) : Nat :=
  (tr.filter fun c => c == .signIn).length

/-- Whether an outcome failed with AuthenticationError. -/
def isAuthError {α : Type} : Except ApiErr α → Bool
  | .error (.auth _) => true
  | _ => false

/-! ## elevate_access (api.py lines 602-667) -/

/-- Network calls elevate_access can make. -/
inductive ElevCall where
  | getAccessLevel : ElevCall
  | generateAccessCode : ElevCall
  | claimGrant : ElevCall
  | approveAccess : ElevCall
deriving DecidableEq

/-- Environment of one elevate_access call: the outcome of each network call
it may issue, in program order.  The access-level and generate-code responses
are JSON objects per the API schema; the claim/approve responses are unused
by the code beyond success/failure. -/
structure ElevateEnv where
  accessLevel1 : Except ApiErr (List (String × JVal))
  generateCode : Except ApiErr (List (String × JVal))
  claimGrant : Except ApiErr JVal
  approveAccess : Except ApiErr JVal
  accessLevel2 : Except ApiErr (List (String × JVal))

/-- elevate_access (api.py lines 602-667): fetch the access level; when
writeAccessLevel >= 20 return it unchanged; otherwise run the three-step
handshake (generate code -> claim grant -> approve), each sub-step failure
returning None (the sub-steps catch QvantumApiError internally); on success
re-fetch and return the access level.  A raising access-level fetch
propagates. -/
def elevate_access (env : ElevateEnv) :
    List ElevCall × Except ApiErr (Option (List (String × JVal))) :=
  match env.accessLevel1 with
  | .error e => ([.getAccessLevel], .error e)
  | .ok access_data =>
    if getIntD access_data "writeAccessLevel" 0 ≥ 20 then
      ([.getAccessLevel], .ok (some access_data))
    else
      match env.generateCode with
      | .error _ => ([.getAccessLevel, .generateAccessCode], .ok none)
      | .ok code_data =>
        -- `if not code_data` (falsy response dict) and
        -- `if not access_code` (missing or falsy accessCode field)
        if code_data.isEmpty then ([.getAccessLevel, .generateAccessCode], .ok none)
        else
          match lookupKV code_data "accessCode" with
          | none => ([.getAccessLevel, .generateAccessCode], .ok none)
          | some ac =>
            if !ac.truthy then ([.getAccessLevel, .generateAccessCode], .ok none)
            else
              match env.claimGrant with
              | .error _ =>
                ([.getAccessLevel, .generateAccessCode, .claimGrant], .ok none)
              | .ok _ =>
                match env.approveAccess with
                | .error _ =>
                  ([.getAccessLevel, .generateAccessCode, .claimGrant, .approveAccess],
                    .ok none)
                | .ok _ =>
                  match env.accessLevel2 with
                  | .error e =>
                    ([.getAccessLevel, .generateAccessCode, .claimGrant, .approveAccess,
                      .getAccessLevel], .error e)
                  | .ok updated =>
                    ([.getAccessLevel, .generateAccessCode, .claimGrant, .approveAccess,
                      .getAccessLevel], .ok (some updated))

/-! ## set_setting (api.py lines 415-469) -/

/-- Calls set_setting can make (the elevation is a nested call sequence of
its own; at this level it is one logical step, modelled in detail by
elevate_access above). -/
inductive SetCall where
  | postCommand : JVal → SetCall
  | elevate : SetCall

/-- Environment of one set_setting call: the outcome of the first command
post, of the elevation attempt (elevate_access returns an access-level dict
or None, or raises), and of the retried command post — each consulted only
if the corresponding call happens. -/
structure SetSettingEnv where
  post1 : Except ApiErr JVal
  elevateOutcome : Except ApiErr (Option (List (String × JVal)))
  post2 : Except ApiErr JVal

/-- The permission-denied check of api.py lines 444-446:
`response and "response" in response` followed by
`response["response"].get(setting) == "permission denied"`. -/
def denialFor (resp : JVal) (setting : String) : Bool :=
  resp.truthy && pyContainsKey resp "response" &&
    (match resp.index "response" with
     | some (.obj kvs) =>
       match lookupKV kvs setting with
       | some (.str s) => s == "permission denied"
       | _ => false
     | _ => false)

/-- Truthiness of the elevate_access return value as tested by
`if self.elevate_access(device_id):` — a nonempty dict. -/
def elevSuccess (r : Option (List (String × JVal))) : Bool :=
  match r with
  | some kvs => !kvs.isEmpty
  | none => false

/-- The command payload `{"command": {"update_settings": {setting: value}}}`
with the coerced value (api.py lines 430-438). -/
def set_setting_payload (setting : String) (value : JVal) : JVal :=
  .obj [("command", .obj [("update_settings",
    .obj [(setting, coerce_setting_value value)])])]

/-- set_setting (api.py lines 415-469): post the command; if the structured
response marks this setting permission denied, elevate access once and, when
elevation returns a truthy access level, re-post the identical command
exactly once, returning that second response unconditionally; when elevation
returns a falsy result, return the original denial response.  Errors raised
by a post or by the elevation propagate. -/
def set_setting (env : SetSettingEnv) (setting : String) (value : JVal) :
    List SetCall × Except ApiErr JVal :=
  let payload := set_setting_payload setting value
  match env.post1 with
  | .error e => ([.postCommand payload], .error e)
  | .ok resp =>
    if denialFor resp setting then
      match env.elevateOutcome with
      | .error e => ([.postCommand payload, .elevate], .error e)
      | .ok r =>
        if elevSuccess r then
          ([.postCommand payload, .elevate, .postCommand payload], env.post2)
        else
          ([.postCommand payload, .elevate], .ok resp)
    else ([.postCommand payload], .ok resp)

/-- Number of command posts in a set_setting trace. -/
def countPost (tr : List SetCall) : Nat :=
  (tr.filter fun c => c matches .postCommand _).length

/-- Number of elevation attempts in a set_setting trace. -/
def countElevate (tr : List SetCall) : Nat :=
  (tr.filter fun c => c matches .elevate).length

/-! ## The data update coordinator (init module, _update_data, lines 375-642) -/

/-- The fast-polling metric list (const.py FAST_POLLING_METRICS). -/
def FAST_POLLING_METRICS : List String :=
  ["powertotal", "heatingpower", "dhwpower", "inputcurrent1", "inputcurrent2",
   "inputcurrent3", "bf1_l_min"]

/-- The full metric list requested by the normal coordinator
(const.py METRIC_NAMES: the METRIC_INFO names plus the four manual-mode
metrics). -/
def METRIC_NAMES : List String :=
  ["bf1_l_min", "bp1_pressure", "bp1_temp", "bp2_pressure", "bp2_temp", "bt1",
   "bt2", "bt10", "bt11", "bt13", "bt14", "bt15", "bt20", "bt21", "bt22",
   "bt23", "bt30", "bt31", "bt33", "bt34", "cal_heat_temp",
   "compressormeasuredspeed", "dhw_normal_start", "dhw_normal_stop",
   "fan0_10v", "gp1_speed", "gp2_speed", "picpin_relay_heat_l1",
   "picpin_relay_heat_l2", "picpin_relay_heat_l3", "picpin_relay_qm10",
   "qn8position", "powertotal", "compressorenergy", "additionalenergy",
   "inputcurrent1", "inputcurrent2", "inputcurrent3", "dhw_outl_temp_5",
   "dhw_outl_temp_15", "dhw_outl_temp_max", "dhw_prioritytime", "fanrpm",
   "hp_status", "tap_water_cap", "op_mode", "op_mode_sensor", "enable_sc_dhw",
   "enable_sc_sh", "use_adaptive", "smart_sh_mode", "smart_dhw_mode",
   "calc_suppy_cpr", "btx", "bt4", "bt12", "dhwpower", "heatingpower",
   "cooling_enabled", "guide_des_temp", "guide_he", "price_region",
   "room_temp_ext", "dhwdemand", "heatingdemand", "coolingdemand",
   "heatingreleased", "coolingreleased", "compressorreleased",
   "additionreleased", "dhw_prioritytimeleft", "heating_prioritytimeleft",
   "cooling_priotitytimeleft", "switch_state", "dhwstop_temp",
   "dhwstart_temp", "filtered60sec_outdoortemp", "max_freq_env", "dhw_set",
   "bp1_temp_20min_filter", "max_bp2_env", "picpin_mask", "man_mode",
   "op_man_dhw", "op_man_addition", "op_man_cooling"]

/-- Network calls a poll cycle can make (elevate_access as one logical
call). -/
inductive ApiCall where
  | getAccessLevel : ApiCall
  | elevateAccess : ApiCall
  | getStatus : ApiCall
  | getSettings : ApiCall
  | getInternalMetrics : List String → ApiCall
  | getSettingsInventory : ApiCall
  | getMetricsInventory : ApiCall
  | getAlarms : ApiCall
  | getAlarmsInventory : ApiCall
deriving DecidableEq

/-- The transient-server-error test of the init module (lines 404-409 and
491-496): substring match on the error message. -/
def transientServerError (msg : String) : Bool :=
  containsSeq "Server error" msg || containsSeq "502" msg ||
    containsSeq "503" msg || containsSeq "500" msg

/-- The UpdateFailed signal raised to abort a poll cycle. -/
structure UpdateFailed where
  msg : String

/-- Per-coordinator state that survives across cycles: the coordinator kind,
the shared auto-elevate flag, and the three inventory caches (`.null`
modelling Python None, i.e. not yet cached; the fast coordinator never
touches the caches). -/
structure CoordState where
  is_fast_coordinator : Bool
  auto_elevate_enabled : Bool
  settings_inventory : JVal := .null
  metrics_inventory : JVal := .null
  alarms_inventory : JVal := .null

/-- Environment of one poll cycle: the clock, an oracle for
`datetime.fromisoformat` on the Z-rewritten expiresAt string (`none` models
a ValueError), and the outcome each network call would produce.  Access-level
responses are JSON objects per the API schema; elevate outcomes are those of
elevate_access (an access-level dict or None, or a raised error). -/
structure PollEnv where
  now : Int
  fromIso : String → Option Int
  preAccess : Except ApiErr (List (String × JVal))
  preElevate : Except ApiErr (Option (List (String × JVal)))
  statusR : Except ApiErr JVal
  settingsR : Except ApiErr JVal
  internalMetrics : Except ApiErr JVal
  settingsInventory : Except ApiErr JVal
  metricsInventory : Except ApiErr JVal
  alarmsR : Except ApiErr JVal
  alarmsInventory : Except ApiErr JVal
  accessLevel : Except ApiErr (List (String × JVal))
  renewElevate : Except ApiErr (Option (List (String × JVal)))

/-- Extraction of the values dict from a metrics response (lines 391-394 and
479-482): `metrics["values"]` when the response is a dict containing that
key, the whole response otherwise. -/
def extractValues (metrics : JVal) : JVal :=
  match metrics with
  | .obj kvs =>
    match lookupKV kvs "values" with
    | some v => v
    | none => .obj kvs
  | _ => metrics

/-- The `.replace("Z", "+00:00")` rewrite applied to expiresAt before
parsing (line 604). -/
def pyIsoReplace (s : String) : String :=
  s.replace "Z" "+00:00"

/-- The default access level substituted when the fetch fails
(lines 636-640). -/
def defaultAccessLevel : JVal :=
  .obj [("writeAccessLevel", .int 10), ("readAccessLevel", .int 10), ("expiresAt", .null)]

/-- Step 1 of a normal cycle (lines 425-435): when auto-elevate is enabled,
check the access level and best-effort elevate when it is below 20; every
error is caught and both outcomes are discarded. -/
def preElevateTrace (st : CoordState) (env : PollEnv) : List ApiCall :=
  if st.auto_elevate_enabled then
    match env.preAccess with
    | .ok kvs =>
      if getIntD kvs "writeAccessLevel" 0 < 20 then [.getAccessLevel, .elevateAccess]
      else [.getAccessLevel]
    | .error _ => [.getAccessLevel]
  else []

/-- One cached-inventory step (lines 508-542, 544-565, 575-585): fetch only
when the cache is None; on success store the response, on failure store None
again; either way the data key is set to the cache value. -/
def inventoryStep (cache : JVal) (outcome : Except ApiErr JVal) (call : ApiCall) :
    List ApiCall × JVal :=
  if cache matches JVal.null then
    match outcome with
    | .ok v => ([call], v)
    | .error _ => ([call], JVal.null)
  else ([], cache)

/-- The final access-level step (lines 587-640): fetch the access level and
store it (the default on failure); when expiresAt is truthy and auto-elevate
is enabled, parse it, and when the level is still >= 20 and expiry is
strictly between 0 and 300 seconds away, re-elevate, storing the new level
if the elevation returns a truthy dict; elevation errors and parse failures
are swallowed. -/
def accessLevelStep (st : CoordState) (env : PollEnv)
    (data : List (String × JVal)) : List ApiCall × List (String × JVal) :=
  match env.accessLevel with
  | .error _ => ([.getAccessLevel], setKey data "access_level" defaultAccessLevel)
  | .ok access_level =>
    let data := setKey data "access_level" (.obj access_level)
    match lookupKV access_level "expiresAt" with
    | some v =>
      if v.truthy && st.auto_elevate_enabled then
        match v with
        | .str s =>
          match env.fromIso (pyIsoReplace s) with
          | some t =>
            let time_until_expiry := t - env.now
            if getIntD access_level "writeAccessLevel" 0 ≥ 20 &&
                (0 < time_until_expiry && time_until_expiry < 300) then
              match env.renewElevate with
              | .ok (some kvs) =>
                if !kvs.isEmpty then
                  ([.getAccessLevel, .elevateAccess], setKey data "access_level" (.obj kvs))
                else ([.getAccessLevel, .elevateAccess], data)
              | .ok none => ([.getAccessLevel, .elevateAccess], data)
              | .error _ => ([.getAccessLevel, .elevateAccess], data)
            else ([.getAccessLevel], data)
          | none => ([.getAccessLevel], data)
        | _ => ([.getAccessLevel], data)  -- non-string expiresAt: AttributeError caught
      else ([.getAccessLevel], data)
    | none => ([.getAccessLevel], data)

/-- Steps 5-8 of a normal cycle (lines 508-640): the three cached
inventories, the alarms fetch with its empty-list substitute, and the
access-level step.  These steps never raise. -/
def normalTail (st : CoordState) (env : PollEnv) (data : List (String × JVal)) :
    List ApiCall × List (String × JVal) × CoordState :=
  let (t5, sInv) :=
    inventoryStep st.settings_inventory env.settingsInventory .getSettingsInventory
  let data := setKey data "settings_inventory" sInv
  let (t6, mInv) :=
    inventoryStep st.metrics_inventory env.metricsInventory .getMetricsInventory
  let data := setKey data "metrics_inventory" mInv
  let (t7, alarmsVal) :=
    match env.alarmsR with
    | .ok v => ([ApiCall.getAlarms], v)
    | .error _ => ([ApiCall.getAlarms], JVal.obj [("alarms", JVal.arr [])])
  let data := setKey data "alarms" alarmsVal
  let (t8, aInv) :=
    inventoryStep st.alarms_inventory env.alarmsInventory .getAlarmsInventory
  let data := setKey data "alarms_inventory" aInv
  let (t9, data) := accessLevelStep st env data
  (t5 ++ t6 ++ t7 ++ t8 ++ t9,
    data,
    { st with settings_inventory := sInv, metrics_inventory := mInv,
              alarms_inventory := aInv })

/-- _update_data (init module lines 375-642): the fast coordinator fetches
only the fast metric list, raising UpdateFailed on a transient server error
and omitting the key on any other error; the normal coordinator runs the
pre-elevation step, the optional status and settings fetches, the internal
metrics fetch with the same transient-error escalation, and then the tail
steps.  Returns the trace of calls and either the snapshot with the new
coordinator state, or the UpdateFailed signal. -/
def update_data (st : CoordState) (env : PollEnv) :
    List ApiCall × Except UpdateFailed (List (String × JVal) × CoordState) :=
  if st.is_fast_coordinator then
    match env.internalMetrics with
    | .ok metrics =>
      ([.getInternalMetrics FAST_POLLING_METRICS],
        .ok ([("internal_metrics", extractValues metrics)], st))
    | .error e =>
      if transientServerError e.msg then
        ([.getInternalMetrics FAST_POLLING_METRICS],
          .error ⟨"Transient server error: " ++ e.msg⟩)
      else ([.getInternalMetrics FAST_POLLING_METRICS], .ok ([], st))
  else
    let t1 := preElevateTrace st env
    let (t2, data) :=
      match env.statusR with
      | .ok v => ([ApiCall.getStatus], setKey [] "status" v)
      | .error _ => ([ApiCall.getStatus], [])
    let (t3, data) :=
      match env.settingsR with
      | .ok v => ([ApiCall.getSettings], setKey data "settings" v)
      | .error _ => ([ApiCall.getSettings], data)
    match env.internalMetrics with
    | .error e =>
      if transientServerError e.msg then
        (t1 ++ t2 ++ t3 ++ [.getInternalMetrics METRIC_NAMES],
          .error ⟨"Transient server error: " ++ e.msg⟩)
      else
        let (t5, snap, st') := normalTail st env data
        (t1 ++ t2 ++ t3 ++ [.getInternalMetrics METRIC_NAMES] ++ t5, .ok (snap, st'))
    | .ok metrics =>
      let data := setKey data "internal_metrics" (extractValues metrics)
      let (t5, snap, st') := normalTail st env data
      (t1 ++ t2 ++ t3 ++ [.getInternalMetrics METRIC_NAMES] ++ t5, .ok (snap, st'))

/-- Whether a snapshot carries a key. -/
def hasKey (kvs : List (String × JVal)) (k : String) : Bool :=
  (lookupKV kvs k).isSome

/-- Number of elevate_access invocations in a cycle trace. -/
def countElevCalls (tr : List ApiCall) : Nat :=
  (tr.filter fun c => c == .elevateAccess).length

/-- The renewal condition of the final access-level step (init module lines
599-613), spelled out as a predicate on the fetched access level: a truthy
expiresAt, the auto-elevate flag, a successful parse, writeAccessLevel still
at least 20, and an expiry strictly between 0 and 300 seconds away. -/
def renewCondition (st : CoordState) (env : PollEnv) (al : List (String × JVal)) : Bool :=
  match lookupKV al "expiresAt" with
  | some v =>
    if v.truthy && st.auto_elevate_enabled then
      match v with
      | .str s =>
        match env.fromIso (pyIsoReplace s) with
        | some t =>
          getIntD al "writeAccessLevel" 0 ≥ 20 && (0 < t - env.now && t - env.now < 300)
        | none => false
      | _ => false
    else false
  | none => false

/-- Whether the internal-metrics outcome avoids the transient-server-error
escalation (so the cycle cannot fail through it). -/
def metricsNonTransient (env : PollEnv) : Bool :=
  match env.internalMetrics with
  | .error e => !transientServerError e.msg
  | .ok _ => true

/-- The alarms value stored by step 6: the fetched alarms, or the empty
alarm list on failure. -/
def alarmsValue (env : PollEnv) : JVal :=
  match env.alarmsR with
  | .ok v => v
  | .error _ => .obj [("alarms", .arr [])]

/-- The snapshot contents accumulated by the status and settings steps
(2 and 3) of a normal cycle. -/
def headData (env : PollEnv) : List (String × JVal) :=
  let d :=
    match env.statusR with
    | .ok v => setKey [] "status" v
    | .error _ => []
  match env.settingsR with
  | .ok v => setKey d "settings" v
  | .error _ => d

/-- The snapshot contents accumulated by steps 5-7 of a normal cycle on top
of earlier data, just before the access-level step. -/
def tailData (st : CoordState) (env : PollEnv) (d : List (String × JVal)) :
    List (String × JVal) :=
  setKey
    (setKey
      (setKey
        (setKey d "settings_inventory"
          (inventoryStep st.settings_inventory env.settingsInventory .getSettingsInventory).2)
        "metrics_inventory"
        (inventoryStep st.metrics_inventory env.metricsInventory .getMetricsInventory).2)
      "alarms" (alarmsValue env))
    "alarms_inventory"
    (inventoryStep st.alarms_inventory env.alarmsInventory .getAlarmsInventory).2

/-! ## Helper lemmas -/

theorem lookupKV_setKey_self (d : List (String × JVal)) (k : String) (v : JVal) :
    lookupKV (setKey d k v) k = some v := by
  induction d with
  | nil => simp [setKey, lookupKV]
  | cons hd tl ih =>
    obtain ⟨k', v'⟩ := hd
    simp only [setKey]
    by_cases h : k' = k
    · simp [lookupKV, h]
    · simp [lookupKV, h, ih]

theorem lookupKV_setKey_ne (d : List (String × JVal)) {k k' : String} (v : JVal)
    (h : k' ≠ k) : lookupKV (setKey d k v) k' = lookupKV d k' := by
  have hkk : k ≠ k' := Ne.symm h
  induction d with
  | nil => simp [setKey, lookupKV, hkk]
  | cons hd tl ih =>
    obtain ⟨k₀, v₀⟩ := hd
    simp only [setKey]
    by_cases h₀ : k₀ = k
    · subst h₀
      simp [lookupKV, hkk]
    · simp only [if_neg h₀, lookupKV]
      by_cases h₁ : k₀ = k'
      · simp [h₁]
      · simp [h₁, ih]

theorem hasKey_setKey_self (d : List (String × JVal)) (k : String) (v : JVal) :
    hasKey (setKey d k v) k = true := by
  simp [hasKey, lookupKV_setKey_self]

theorem hasKey_setKey_ne (d : List (String × JVal)) {k k' : String} (v : JVal)
    (h : k' ≠ k) : hasKey (setKey d k v) k' = hasKey d k' := by
  simp [hasKey, lookupKV_setKey_ne d v h]

theorem accessLevelStep_preserve (st : CoordState) (env : PollEnv)
    (d : List (String × JVal)) {k : String} (h : k ≠ "access_level") :
    lookupKV (accessLevelStep st env d).2 k = lookupKV d k := by
  unfold accessLevelStep
  cases hal : env.accessLevel with
  | error e => simp [lookupKV_setKey_ne _ _ h]
  | ok al =>
    simp only []
    repeat' split
    all_goals simp [lookupKV_setKey_ne _ _ h]

theorem accessLevelStep_hasKey (st : CoordState) (env : PollEnv)
    (d : List (String × JVal)) :
    hasKey (accessLevelStep st env d).2 "access_level" = true := by
  unfold accessLevelStep
  cases hal : env.accessLevel with
  | error e => simp [hasKey_setKey_self]
  | ok al =>
    simp only []
    repeat' split
    all_goals simp [hasKey_setKey_self]

theorem accessLevelStep_err (st : CoordState) (env : PollEnv)
    (d : List (String × JVal)) (e : ApiErr) (hal : env.accessLevel = .error e) :
    accessLevelStep st env d = ([.getAccessLevel], setKey d "access_level" defaultAccessLevel) := by
  simp [accessLevelStep, hal]

theorem accessLevelStep_trace (st : CoordState) (env : PollEnv)
    (d : List (String × JVal)) (al : List (String × JVal))
    (hal : env.accessLevel = .ok al) :
    (accessLevelStep st env d).1 =
      .getAccessLevel :: (if renewCondition st env al then [.elevateAccess] else []) := by
  cases hexp : lookupKV al "expiresAt" with
  | none => simp [accessLevelStep, renewCondition, hal, hexp]
  | some v =>
    by_cases htr : (v.truthy && st.auto_elevate_enabled) = true
    · cases v with
      | str s =>
        cases hiso : env.fromIso (pyIsoReplace s) with
        | none => simp [accessLevelStep, renewCondition, hal, hexp, htr, hiso]
        | some t =>
          by_cases hc : 20 ≤ getIntD al "writeAccessLevel" 0 ∧ env.now < t ∧ t - env.now < 300
          · cases hre : env.renewElevate with
            | ok r =>
              cases r with
              | some kvs =>
                by_cases hk : kvs.isEmpty <;>
                  simp [accessLevelStep, renewCondition, hal, hexp, htr, hiso, hc, hre, hk]
              | none =>
                simp [accessLevelStep, renewCondition, hal, hexp, htr, hiso, hc, hre]
            | error e2 =>
              simp [accessLevelStep, renewCondition, hal, hexp, htr, hiso, hc, hre]
          · simp [accessLevelStep, renewCondition, hal, hexp, htr, hiso, hc]
      | null => simp [accessLevelStep, renewCondition, hal, hexp, htr]
      | bool b => simp [accessLevelStep, renewCondition, hal, hexp, htr]
      | int n => simp [accessLevelStep, renewCondition, hal, hexp, htr]
      | arr xs => simp [accessLevelStep, renewCondition, hal, hexp, htr]
      | obj kvs => simp [accessLevelStep, renewCondition, hal, hexp, htr]
    · simp [accessLevelStep, renewCondition, hal, hexp, htr]

theorem accessLevelStep_no_renew (st : CoordState) (env : PollEnv)
    (d : List (String × JVal)) (al : List (String × JVal))
    (hal : env.accessLevel = .ok al) (hrc : renewCondition st env al = false) :
    (accessLevelStep st env d).2 = setKey d "access_level" (.obj al) := by
  cases hexp : lookupKV al "expiresAt" with
  | none => simp [accessLevelStep, hal, hexp]
  | some v =>
    by_cases htr : (v.truthy && st.auto_elevate_enabled) = true
    · cases v with
      | str s =>
        cases hiso : env.fromIso (pyIsoReplace s) with
        | none => simp [accessLevelStep, hal, hexp, htr, hiso]
        | some t =>
          simp only [renewCondition, hexp, htr, hiso] at hrc
          simp at hrc
          have hneg : ¬(20 ≤ getIntD al "writeAccessLevel" 0 ∧ env.now < t ∧
              t - env.now < 300) := by
            intro hh
            have := hrc hh.1 hh.2.1
            omega
          simp [accessLevelStep, hal, hexp, htr, hiso, hneg]
      | null => simp [accessLevelStep, hal, hexp, htr]
      | bool b => simp [accessLevelStep, hal, hexp, htr]
      | int n => simp [accessLevelStep, hal, hexp, htr]
      | arr xs => simp [accessLevelStep, hal, hexp, htr]
      | obj kvs => simp [accessLevelStep, hal, hexp, htr]
    · simp [accessLevelStep, hal, hexp, htr]

theorem normalTail_eq (st : CoordState) (env : PollEnv) (d : List (String × JVal)) :
    normalTail st env d =
      ((inventoryStep st.settings_inventory env.settingsInventory .getSettingsInventory).1 ++
        (inventoryStep st.metrics_inventory env.metricsInventory .getMetricsInventory).1 ++
        [.getAlarms] ++
        (inventoryStep st.alarms_inventory env.alarmsInventory .getAlarmsInventory).1 ++
        (accessLevelStep st env (tailData st env d)).1,
       (accessLevelStep st env (tailData st env d)).2,
       { st with
          settings_inventory :=
            (inventoryStep st.settings_inventory env.settingsInventory .getSettingsInventory).2,
          metrics_inventory :=
            (inventoryStep st.metrics_inventory env.metricsInventory .getMetricsInventory).2,
          alarms_inventory :=
            (inventoryStep st.alarms_inventory env.alarmsInventory .getAlarmsInventory).2 }) := by
  obtain ⟨now, fromIso, preA, preE, stR, setR, im, sI, mI, alR, aI, acc, renew⟩ := env
  cases alR <;> rfl

theorem countElev_inventoryStep (cache : JVal) (oc : Except ApiErr JVal) (c : ApiCall)
    (h : (c == ApiCall.elevateAccess) = false) :
    countElevCalls (inventoryStep cache oc c).1 = 0 := by
  unfold inventoryStep
  split
  · cases oc <;> simp [countElevCalls, h]
  · simp [countElevCalls]

theorem normalTail_snap_preserve (st : CoordState) (env : PollEnv)
    (d : List (String × JVal)) {k : String}
    (h1 : k ≠ "settings_inventory") (h2 : k ≠ "metrics_inventory")
    (h3 : k ≠ "alarms") (h4 : k ≠ "alarms_inventory") (h5 : k ≠ "access_level") :
    lookupKV (normalTail st env d).2.1 k = lookupKV d k := by
  rw [normalTail_eq]
  simp only []
  rw [accessLevelStep_preserve st env _ h5]
  unfold tailData
  rw [lookupKV_setKey_ne _ _ h4, lookupKV_setKey_ne _ _ h3,
      lookupKV_setKey_ne _ _ h2, lookupKV_setKey_ne _ _ h1]

theorem normalTail_has_five_keys (st : CoordState) (env : PollEnv)
    (d : List (String × JVal)) :
    hasKey (normalTail st env d).2.1 "settings_inventory" = true ∧
    hasKey (normalTail st env d).2.1 "metrics_inventory" = true ∧
    hasKey (normalTail st env d).2.1 "alarms" = true ∧
    hasKey (normalTail st env d).2.1 "alarms_inventory" = true ∧
    hasKey (normalTail st env d).2.1 "access_level" = true := by
  rw [normalTail_eq]
  simp only []
  refine ⟨?_, ?_, ?_, ?_, ?_⟩
  · rw [hasKey, accessLevelStep_preserve st env _ (by decide)]
    unfold tailData
    rw [lookupKV_setKey_ne _ _ (by decide), lookupKV_setKey_ne _ _ (by decide),
        lookupKV_setKey_ne _ _ (by decide), lookupKV_setKey_self]
    rfl
  · rw [hasKey, accessLevelStep_preserve st env _ (by decide)]
    unfold tailData
    rw [lookupKV_setKey_ne _ _ (by decide), lookupKV_setKey_ne _ _ (by decide),
        lookupKV_setKey_self]
    rfl
  · rw [hasKey, accessLevelStep_preserve st env _ (by decide)]
    unfold tailData
    rw [lookupKV_setKey_ne _ _ (by decide), lookupKV_setKey_self]
    rfl
  · rw [hasKey, accessLevelStep_preserve st env _ (by decide)]
    unfold tailData
    rw [lookupKV_setKey_self]
    rfl
  · exact accessLevelStep_hasKey st env _

theorem normalTail_alarms_sub (st : CoordState) (env : PollEnv)
    (d : List (String × JVal)) (e : ApiErr) (ha : env.alarmsR = .error e) :
    lookupKV (normalTail st env d).2.1 "alarms" = some (.obj [("alarms", .arr [])]) := by
  rw [normalTail_eq]
  simp only []
  rw [accessLevelStep_preserve st env _ (by decide)]
  unfold tailData
  rw [lookupKV_setKey_ne _ _ (by decide), lookupKV_setKey_self]
  simp [alarmsValue, ha]

theorem normalTail_access_sub (st : CoordState) (env : PollEnv)
    (d : List (String × JVal)) (e : ApiErr) (ha : env.accessLevel = .error e) :
    lookupKV (normalTail st env d).2.1 "access_level" = some defaultAccessLevel := by
  rw [normalTail_eq]
  simp only []
  rw [accessLevelStep_err st env _ e ha]
  simp only []
  rw [lookupKV_setKey_self]

theorem normalTail_sinv_sub (st : CoordState) (env : PollEnv)
    (d : List (String × JVal)) (e : ApiErr) (hc : st.settings_inventory = .null)
    (he : env.settingsInventory = .error e) :
    lookupKV (normalTail st env d).2.1 "settings_inventory" = some .null := by
  rw [normalTail_eq]
  simp only []
  rw [accessLevelStep_preserve st env _ (by decide)]
  unfold tailData
  rw [lookupKV_setKey_ne _ _ (by decide), lookupKV_setKey_ne _ _ (by decide),
      lookupKV_setKey_ne _ _ (by decide), lookupKV_setKey_self]
  simp [inventoryStep, hc, he]

theorem normalTail_minv_sub (st : CoordState) (env : PollEnv)
    (d : List (String × JVal)) (e : ApiErr) (hc : st.metrics_inventory = .null)
    (he : env.metricsInventory = .error e) :
    lookupKV (normalTail st env d).2.1 "metrics_inventory" = some .null := by
  rw [normalTail_eq]
  simp only []
  rw [accessLevelStep_preserve st env _ (by decide)]
  unfold tailData
  rw [lookupKV_setKey_ne _ _ (by decide), lookupKV_setKey_ne _ _ (by decide),
      lookupKV_setKey_self]
  simp [inventoryStep, hc, he]

theorem normalTail_ainv_sub (st : CoordState) (env : PollEnv)
    (d : List (String × JVal)) (e : ApiErr) (hc : st.alarms_inventory = .null)
    (he : env.alarmsInventory = .error e) :
    lookupKV (normalTail st env d).2.1 "alarms_inventory" = some .null := by
  rw [normalTail_eq]
  simp only []
  rw [accessLevelStep_preserve st env _ (by decide)]
  unfold tailData
  rw [lookupKV_setKey_self]
  simp [inventoryStep, hc, he]

theorem countElev_normalTail (st : CoordState) (env : PollEnv)
    (d : List (String × JVal)) :
    countElevCalls (normalTail st env d).1 =
      countElevCalls (accessLevelStep st env (tailData st env d)).1 := by
  rw [normalTail_eq]
  simp only [countElevCalls, List.filter_append, List.length_append]
  rw [show (List.filter (fun c => c == ApiCall.elevateAccess)
      (inventoryStep st.settings_inventory env.settingsInventory .getSettingsInventory).1).length
      = 0 from countElev_inventoryStep _ _ _ rfl]
  rw [show (List.filter (fun c => c == ApiCall.elevateAccess)
      (inventoryStep st.metrics_inventory env.metricsInventory .getMetricsInventory).1).length
      = 0 from countElev_inventoryStep _ _ _ rfl]
  rw [show (List.filter (fun c => c == ApiCall.elevateAccess)
      (inventoryStep st.alarms_inventory env.alarmsInventory .getAlarmsInventory).1).length
      = 0 from countElev_inventoryStep _ _ _ rfl]
  simp

theorem update_data_normal_ok (st : CoordState) (env : PollEnv) (m : JVal)
    (hf : st.is_fast_coordinator = false) (hm : env.internalMetrics = .ok m) :
    update_data st env =
      (preElevateTrace st env ++ [.getStatus] ++ [.getSettings] ++
        [.getInternalMetrics METRIC_NAMES] ++
        (normalTail st env (setKey (headData env) "internal_metrics" (extractValues m))).1,
       .ok (normalTail st env (setKey (headData env) "internal_metrics" (extractValues m))).2) := by
  obtain ⟨now, fromIso, preA, preE, stR, setR, im, sI, mI, alR, aI, acc, renew⟩ := env
  have hm2 : im = .ok m := hm
  subst hm2
  cases stR <;> cases setR <;> simp [update_data, hf, headData]

theorem update_data_normal_err_trans (st : CoordState) (env : PollEnv) (e : ApiErr)
    (hf : st.is_fast_coordinator = false) (hm : env.internalMetrics = .error e)
    (ht : transientServerError e.msg = true) :
    update_data st env =
      (preElevateTrace st env ++ [.getStatus] ++ [.getSettings] ++
        [.getInternalMetrics METRIC_NAMES],
       .error ⟨"Transient server error: " ++ e.msg⟩) := by
  obtain ⟨now, fromIso, preA, preE, stR, setR, im, sI, mI, alR, aI, acc, renew⟩ := env
  have hm2 : im = .error e := hm
  subst hm2
  cases stR <;> cases setR <;> simp [update_data, hf, ht]

theorem update_data_normal_err_nontrans (st : CoordState) (env : PollEnv) (e : ApiErr)
    (hf : st.is_fast_coordinator = false) (hm : env.internalMetrics = .error e)
    (ht : transientServerError e.msg = false) :
    update_data st env =
      (preElevateTrace st env ++ [.getStatus] ++ [.getSettings] ++
        [.getInternalMetrics METRIC_NAMES] ++ (normalTail st env (headData env)).1,
       .ok (normalTail st env (headData env)).2) := by
  obtain ⟨now, fromIso, preA, preE, stR, setR, im, sI, mI, alR, aI, acc, renew⟩ := env
  have hm2 : im = .error e := hm
  subst hm2
  cases stR <;> cases setR <;> simp [update_data, hf, ht, headData]

theorem lookupKV_headData_none (env : PollEnv) {k : String}
    (h1 : k ≠ "status") (h2 : k ≠ "settings") :
    lookupKV (headData env) k = none := by
  unfold headData
  cases env.statusR <;> cases env.settingsR <;>
    simp [lookupKV, setKey, Ne.symm h1, Ne.symm h2]

theorem lookupKV_headData_status_err (env : PollEnv) (e : ApiErr)
    (hs : env.statusR = .error e) : lookupKV (headData env) "status" = none := by
  unfold headData
  rw [hs]
  cases env.settingsR <;>
    simp [lookupKV, lookupKV_setKey_ne _ _ (by decide : ("status" : String) ≠ "settings")]

theorem lookupKV_headData_settings_err (env : PollEnv) (e : ApiErr)
    (hs : env.settingsR = .error e) : lookupKV (headData env) "settings" = none := by
  unfold headData
  rw [hs]
  cases hst : env.statusR <;>
    simp [lookupKV, lookupKV_setKey_ne _ _ (by decide : ("settings" : String) ≠ "status")]

/-! ## Claim theorems -/

/-- C10: set_setting's best-effort value coercion is total (it is a Lean
function, so it never raises) and sends a string consisting of an optional
single leading dash followed only by digits as the corresponding integer,
every other value unchanged — the coercion from api.py lines 430-435 agrees
with the claim's wording on every input value. -/
theorem c10_coercion_matches_spec (v : JVal) :
    coerce_setting_value v = coerce_setting_value_spec v := by
  have hdashNotDigit : ('-' : Char).isDigit = false := by decide
  have hplusNotDigit : ('+' : Char).isDigit = false := by decide
  cases v with
  | str s =>
    obtain ⟨l⟩ := s
    simp only [coerce_setting_value, coerce_setting_value_spec]
    cases l with
    | nil => simp [dropDashes]
    | cons c t =>
      by_cases hc : c = '-'
      · subst hc
        cases t with
        | nil => simp [dropDashes]
        | cons c2 t2 =>
          by_cases hc2 : c2 = '-'
          · subst hc2
            simp only [dropDashes, if_pos rfl]
            split
            · simp [pyToIntChars, hdashNotDigit]
            · simp [hdashNotDigit]
          · simp only [dropDashes, if_pos rfl, if_neg hc2]
            by_cases hall : (c2 :: t2).all Char.isDigit
            · simp [hall, pyToIntChars]
            · simp [hall]
      · simp only [dropDashes, if_neg hc]
        by_cases hall : (c :: t).all Char.isDigit
        · have hcd : c.isDigit = true := by
            have := hall
            simp [List.all_cons] at this
            exact this.1
          have hcp : c ≠ '+' := by
            intro h; rw [h] at hcd; exact absurd hcd (by decide)
          simp [hall, pyToIntChars, hc, hcp]
        · simp [hall]
  | null => rfl
  | bool b => rfl
  | int n => rfl
  | arr xs => rfl
  | obj kvs => rfl

/-- C6: the set_extra_hot_water command payload takes exactly one of three
mutually exclusive shapes — the cancel payload when hours = 0 and not
indefinite, the indefinite-enable payload when indefinite, and otherwise the
timed-enable payload whose stopTime is now + hours serialized in the fixed
format YYYY-MM-DDTHH:MM:SS.000Z. -/
theorem c6_extra_hot_water_payload_shapes (now hours : Int) (indefinite : Bool) :
    (hours = 0 → indefinite = false →
      set_extra_hot_water_payload now hours indefinite =
        .obj [("command", .obj [("set_additional_hot_water", .obj
          [("stopTime", .null), ("indefinite", .bool false),
           ("cancel", .bool true)])])]) ∧
    (indefinite = true →
      set_extra_hot_water_payload now hours indefinite =
        .obj [("command", .obj [("set_additional_hot_water", .obj
          [("stopTime", .null), ("indefinite", .bool true),
           ("cancel", .bool false)])])]) ∧
    (hours ≠ 0 → indefinite = false →
      set_extra_hot_water_payload now hours indefinite =
        .obj [("command", .obj [("set_additional_hot_water", .obj
          [("stopTime", .str (strftimeZ (now + 3600 * hours))),
           ("indefinite", .bool false), ("cancel", .bool false)])])]) := by
  refine ⟨?_, ?_, ?_⟩
  · intro h0 hind; subst h0; subst hind
    simp [set_extra_hot_water_payload]
  · intro hind; subst hind
    simp [set_extra_hot_water_payload]
  · intro h0 hind; subst hind
    simp [set_extra_hot_water_payload, h0]

/-- C6 witness: with the clock at epoch 0, hours = 2 and indefinite = false,
the payload is the timed-enable shape with stopTime now + 2h in the fixed
format. -/
theorem c6_extra_hot_water_witness :
    set_extra_hot_water_payload 0 2 false =
      .obj [("command", .obj [("set_additional_hot_water", .obj
        [("stopTime", .str "1970-01-01T02:00:00.000Z"),
         ("indefinite", .bool false), ("cancel", .bool false)])])] := by
  have h := (c6_extra_hot_water_payload_shapes 0 2 false).2.2 (by decide) rfl
  rw [h]
  rfl

/-- C7 counterexample: a 200 response with an empty body makes _get_request
(and _patch_request) raise a generic API error — the JSON decode of the
empty body fails inside the try block and is re-raised as QvantumApiError —
rather than return an empty result as the claim states for every verb. -/
theorem c7_empty_body_counterexample :
    get_request (.response { status := 200, text := "", jsonBody := none })
      = .error (.api jsonFailMsg) ∧
    patch_request (.response { status := 200, text := "", jsonBody := none })
      = .error (.api jsonFailMsg) := by
  exact ⟨rfl, rfl⟩

/-- C7 amended: for each verb a 2xx response whose body parses as JSON
returns the parsed body; only _post_request returns an empty result on a
2xx response with an empty body — _get_request and _patch_request raise a
generic API error when the 2xx body does not parse (in particular when it is
empty). -/
theorem c7_two_xx_handling (r : HttpResp) (h2 : 200 ≤ r.status) (h3 : r.status < 300) :
    (∀ v, r.jsonBody = some v →
      get_request (.response r) = .ok v ∧ patch_request (.response r) = .ok v ∧
        (r.text ≠ "" → post_request (.response r) = .ok v)) ∧
    (r.text = "" → post_request (.response r) = .ok (.obj [])) ∧
    (r.jsonBody = none →
      get_request (.response r) = .error (.api jsonFailMsg) ∧
      patch_request (.response r) = .error (.api jsonFailMsg)) := by
  have hlt : ¬(400 ≤ r.status ∧ r.status < 600) := by omega
  refine ⟨?_, ?_, ?_⟩
  · intro v hv
    refine ⟨?_, ?_, ?_⟩
    · simp [get_request, hlt, parseJsonBody, hv]
    · simp [patch_request, get_request, hlt, parseJsonBody, hv]
    · intro ht
      simp [post_request, hlt, ht, parseJsonBody, hv]
  · intro ht
    simp [post_request, hlt, ht]
  · intro hv
    refine ⟨?_, ?_⟩
    · simp [get_request, hlt, parseJsonBody, hv]
    · simp [patch_request, get_request, hlt, parseJsonBody, hv]

/-- C7 witness: the amended theorem applied to a concrete 200 response with
body {} and to a concrete 200 response with an empty body. -/
theorem c7_two_xx_witness :
    get_request (.response { status := 200, text := "x", jsonBody := some (.obj []) })
      = .ok (.obj []) ∧
    post_request (.response { status := 200, text := "", jsonBody := none })
      = .ok (.obj []) := by
  refine ⟨?_, ?_⟩
  · exact ((c7_two_xx_handling { status := 200, text := "x", jsonBody := some (.obj []) }
      (by decide) (by decide)).1 (.obj []) rfl).1
  · exact (c7_two_xx_handling { status := 200, text := "", jsonBody := none }
      (by decide) (by decide)).2.1 rfl

/-- C1 counterexample: a token set exists and is past its expiry, the refresh
exchange fails with a connection error, and _ensure_tokens_valid performs no
sign-in at all — the error propagates — contradicting the claim that any
refresh failure is followed by exactly one full sign-in. -/
theorem c1_refresh_fallback_counterexample :
    ensure_tokens_valid
      { now := 100, refreshOutcome := .error (.conn "Token refresh timeout: boom"),
        authOutcome := .ok { idToken := "i", refreshToken := "r", expiresIn := 3600 } }
      { tokens := some { idToken := "a", refreshToken := "b", expiresIn := 3600 },
        token_expiry := some 100 }
      = ([.refreshExchange], .error (.conn "Token refresh timeout: boom")) ∧
    countSignIn [.refreshExchange] = 0 := by
  exact ⟨rfl, rfl⟩

/-- C1 amended: for a token set past its expiry-with-margin timestamp,
_ensure_tokens_valid performs exactly one refresh exchange; it performs a
full sign-in (exactly one) only when the refresh fails with
AuthenticationError — when the refresh fails with a connection error or any
other API error, that error propagates and no sign-in happens. -/
theorem c1_refresh_fallback (env : TokenEnv) (st : TokenState) (t : Tokens) (e : Int)
    (ht : st.tokens = some t) (he : st.token_expiry = some e) (hexp : env.now ≥ e) :
    countRefresh (ensure_tokens_valid env st).1 = 1 ∧
    countSignIn (ensure_tokens_valid env st).1 =
      (if isAuthError env.refreshOutcome then 1 else 0) ∧
    (∀ er, env.refreshOutcome = .error er → isAuthError env.refreshOutcome = false →
      (ensure_tokens_valid env st).2 = .error er) := by
  simp only [ensure_tokens_valid, ht, he, decide_eq_true hexp, if_true, Option.isSome_some]
  cases hro : env.refreshOutcome with
  | ok rd => simp [acquire_tokens, countRefresh, countSignIn, isAuthError, hro]
  | error er =>
    cases er with
    | auth m =>
      cases hao : env.authOutcome with
      | ok t' => simp [acquire_tokens, countRefresh, countSignIn, isAuthError, hro, hao]
      | error e' => simp [acquire_tokens, countRefresh, countSignIn, isAuthError, hro, hao]
    | conn m => simp [acquire_tokens, countRefresh, countSignIn, isAuthError, hro]
    | api m => simp [acquire_tokens, countRefresh, countSignIn, isAuthError, hro]

/-- C1 witness: the amended theorem applied to an expired token set whose
refresh fails with AuthenticationError — one refresh, one sign-in. -/
theorem c1_refresh_fallback_witness :
    countRefresh (ensure_tokens_valid
      { now := 100, refreshOutcome := .error (.auth "Invalid refresh token"),
        authOutcome := .ok { idToken := "i", refreshToken := "r", expiresIn := 3600 } }
      { tokens := some { idToken := "a", refreshToken := "b", expiresIn := 3600 },
        token_expiry := some 50 }).1 = 1 := by
  exact (c1_refresh_fallback
    { now := 100, refreshOutcome := .error (.auth "Invalid refresh token"),
      authOutcome := .ok { idToken := "i", refreshToken := "r", expiresIn := 3600 } }
    { tokens := some { idToken := "a", refreshToken := "b", expiresIn := 3600 },
      token_expiry := some 50 }
    { idToken := "a", refreshToken := "b", expiresIn := 3600 } 50 rfl rfl
    (by decide)).1

/-- C5: while a token set exists and the clock is strictly before the stored
expiry, _ensure_tokens_valid makes no network call and leaves the state
unchanged; and after any cycle that did acquire tokens (a nonempty call
trace) the stored expiry is the acquisition time plus the reported lifetime
minus the 60-second margin. -/
theorem c5_expiry_margin (env : TokenEnv) (st : TokenState) :
    (∀ t e, st.tokens = some t → st.token_expiry = some e → env.now < e →
      ensure_tokens_valid env st = ([], .ok st)) ∧
    (∀ tr st', ensure_tokens_valid env st = (tr, .ok st') → tr ≠ [] →
      ∃ t', st'.tokens = some t' ∧
        st'.token_expiry = some (env.now + t'.expiresIn - 60)) := by
  constructor
  · intro t e ht he hlt
    have : decide (env.now ≥ e) = false := by simp; omega
    simp [ensure_tokens_valid, ht, he, this]
  · intro tr st' hout htr
    unfold ensure_tokens_valid at hout
    by_cases hstale : (match st.tokens, st.token_expiry with
        | none, _ => true
        | _, none => true
        | some _, some e => decide (env.now ≥ e)) = true
    · rw [if_pos hstale] at hout
      cases hacq : acquire_tokens env st.tokens.isSome with
      | mk tr0 res =>
        cases res with
        | ok t =>
          rw [hacq] at hout
          simp at hout
          exact ⟨t, by simp [← hout.2]⟩
        | error e =>
          rw [hacq] at hout
          simp at hout
    · rw [if_neg hstale] at hout
      simp at hout
      exact absurd hout.1 htr

/-- C5 witness: the theorem applied to a fresh token set (no call is made)
and to an expired one whose refresh succeeds (the recomputed expiry
follows the issue time + lifetime - 60s rule). -/
theorem c5_expiry_margin_witness :
    ensure_tokens_valid
      { now := 100, refreshOutcome := .error (.conn "down"),
        authOutcome := .error (.conn "down") }
      { tokens := some { idToken := "a", refreshToken := "b", expiresIn := 3600 },
        token_expiry := some 200 }
      = ([], .ok { tokens := some { idToken := "a", refreshToken := "b", expiresIn := 3600 },
                   token_expiry := some 200 }) ∧
    ∃ t', ({ tokens := some { idToken := "i2", refreshToken := "r2", expiresIn := 7200 },
             token_expiry := some (100 + 7200 - 60) } : TokenState).tokens = some t' ∧
      ({ tokens := some { idToken := "i2", refreshToken := "r2", expiresIn := 7200 },
         token_expiry := some (100 + 7200 - 60) } : TokenState).token_expiry
        = some (100 + t'.expiresIn - 60) := by
  constructor
  · exact (c5_expiry_margin
      { now := 100, refreshOutcome := .error (.conn "down"),
        authOutcome := .error (.conn "down") }
      { tokens := some { idToken := "a", refreshToken := "b", expiresIn := 3600 },
        token_expiry := some 200 }).1
      { idToken := "a", refreshToken := "b", expiresIn := 3600 } 200 rfl rfl (by decide)
  · exact (c5_expiry_margin
      { now := 100,
        refreshOutcome := .ok { id_token := "i2", refresh_token := "r2", expires_in := 7200 },
        authOutcome := .error (.conn "down") }
      { tokens := some { idToken := "a", refreshToken := "b", expiresIn := 3600 },
        token_expiry := some 100 }).2 [.refreshExchange]
      { tokens := some { idToken := "i2", refreshToken := "r2", expiresIn := 7200 },
        token_expiry := some (100 + 7200 - 60) } rfl (by simp)

/-- C3: for either coordinator kind, an internal-metrics fetch failing with
a message containing Server error, 500, 502 or 503 as a substring makes the
whole poll cycle raise UpdateFailed (no snapshot is produced), while a
failure with any other message lets the cycle complete with the
internal_metrics key absent from the snapshot. -/
theorem c3_transient_server_error (st : CoordState) (env : PollEnv) (e : ApiErr)
    (hm : env.internalMetrics = .error e) :
    (transientServerError e.msg = true →
      (update_data st env).2 = .error ⟨"Transient server error: " ++ e.msg⟩) ∧
    (transientServerError e.msg = false →
      ∃ snap st₂, (update_data st env).2 = .ok (snap, st₂) ∧
        hasKey snap "internal_metrics" = false) := by
  constructor
  · intro ht
    by_cases hf : st.is_fast_coordinator = true
    · simp [update_data, hf, hm, ht]
    · have hf' : st.is_fast_coordinator = false := by
        simpa using hf
      rw [update_data_normal_err_trans st env e hf' hm ht]
  · intro ht
    by_cases hf : st.is_fast_coordinator = true
    · refine ⟨[], st, ?_, rfl⟩
      simp [update_data, hf, hm, ht]
    · have hf' : st.is_fast_coordinator = false := by
        simpa using hf
      rw [update_data_normal_err_nontrans st env e hf' hm ht]
      refine ⟨(normalTail st env (headData env)).2.1,
        (normalTail st env (headData env)).2.2, rfl, ?_⟩
      rw [hasKey, normalTail_snap_preserve st env _ (by decide) (by decide) (by decide)
        (by decide) (by decide)]
      rw [lookupKV_headData_none env (by decide) (by decide)]
      rfl

/-- C3 witness: a fast cycle failing with an Internal server error 503
message raises UpdateFailed, and a normal cycle failing with a not found
message completes with internal_metrics absent. -/
theorem c3_transient_server_error_witness :
    (update_data { is_fast_coordinator := true, auto_elevate_enabled := false }
      { now := 0, fromIso := fun _ => none,
        preAccess := .error (.api "x"), preElevate := .ok none,
        statusR := .error (.api "x"), settingsR := .error (.api "x"),
        internalMetrics := .error (.conn "Internal server error 503"),
        settingsInventory := .error (.api "x"), metricsInventory := .error (.api "x"),
        alarmsR := .error (.api "x"), alarmsInventory := .error (.api "x"),
        accessLevel := .error (.api "x"), renewElevate := .ok none }).2
      = .error ⟨"Transient server error: Internal server error 503"⟩ ∧
    ∃ snap st₂,
      (update_data { is_fast_coordinator := false, auto_elevate_enabled := false }
        { now := 0, fromIso := fun _ => none,
          preAccess := .error (.api "x"), preElevate := .ok none,
          statusR := .error (.api "x"), settingsR := .error (.api "x"),
          internalMetrics := .error (.api "API error: not found"),
          settingsInventory := .error (.api "x"), metricsInventory := .error (.api "x"),
          alarmsR := .error (.api "x"), alarmsInventory := .error (.api "x"),
          accessLevel := .error (.api "x"), renewElevate := .ok none }).2
        = .ok (snap, st₂) ∧ hasKey snap "internal_metrics" = false := by
  constructor
  · exact (c3_transient_server_error
      { is_fast_coordinator := true, auto_elevate_enabled := false }
      { now := 0, fromIso := fun _ => none,
        preAccess := .error (.api "x"), preElevate := .ok none,
        statusR := .error (.api "x"), settingsR := .error (.api "x"),
        internalMetrics := .error (.conn "Internal server error 503"),
        settingsInventory := .error (.api "x"), metricsInventory := .error (.api "x"),
        alarmsR := .error (.api "x"), alarmsInventory := .error (.api "x"),
        accessLevel := .error (.api "x"), renewElevate := .ok none }
      (.conn "Internal server error 503") rfl).1 (by rfl)
  · exact (c3_transient_server_error
      { is_fast_coordinator := false, auto_elevate_enabled := false }
      { now := 0, fromIso := fun _ => none,
        preAccess := .error (.api "x"), preElevate := .ok none,
        statusR := .error (.api "x"), settingsR := .error (.api "x"),
        internalMetrics := .error (.api "API error: not found"),
        settingsInventory := .error (.api "x"), metricsInventory := .error (.api "x"),
        alarmsR := .error (.api "x"), alarmsInventory := .error (.api "x"),
        accessLevel := .error (.api "x"), renewElevate := .ok none }
      (.api "API error: not found") rfl).2 (by rfl)

theorem snapshot_props (st : CoordState) (env : PollEnv) (d : List (String × JVal))
    (hs : ∀ e, env.statusR = .error e → lookupKV d "status" = none)
    (hset : ∀ e, env.settingsR = .error e → lookupKV d "settings" = none) :
    (hasKey (normalTail st env d).2.1 "settings_inventory" = true ∧
     hasKey (normalTail st env d).2.1 "metrics_inventory" = true ∧
     hasKey (normalTail st env d).2.1 "alarms" = true ∧
     hasKey (normalTail st env d).2.1 "alarms_inventory" = true ∧
     hasKey (normalTail st env d).2.1 "access_level" = true) ∧
    (∀ e, env.alarmsR = .error e →
      lookupKV (normalTail st env d).2.1 "alarms" = some (.obj [("alarms", .arr [])])) ∧
    (∀ e, env.accessLevel = .error e →
      lookupKV (normalTail st env d).2.1 "access_level" = some defaultAccessLevel) ∧
    (∀ e, st.settings_inventory = .null → env.settingsInventory = .error e →
      lookupKV (normalTail st env d).2.1 "settings_inventory" = some .null) ∧
    (∀ e, st.metrics_inventory = .null → env.metricsInventory = .error e →
      lookupKV (normalTail st env d).2.1 "metrics_inventory" = some .null) ∧
    (∀ e, st.alarms_inventory = .null → env.alarmsInventory = .error e →
      lookupKV (normalTail st env d).2.1 "alarms_inventory" = some .null) ∧
    (∀ e, env.statusR = .error e → hasKey (normalTail st env d).2.1 "status" = false) ∧
    (∀ e, env.settingsR = .error e →
      hasKey (normalTail st env d).2.1 "settings" = false) := by
  refine ⟨normalTail_has_five_keys st env d, ?_, ?_, ?_, ?_, ?_, ?_, ?_⟩
  · intro e ha
    exact normalTail_alarms_sub st env d e ha
  · intro e ha
    exact normalTail_access_sub st env d e ha
  · intro e hc he
    exact normalTail_sinv_sub st env d e hc he
  · intro e hc he
    exact normalTail_minv_sub st env d e hc he
  · intro e hc he
    exact normalTail_ainv_sub st env d e hc he
  · intro e he
    rw [hasKey, normalTail_snap_preserve st env d (by decide) (by decide) (by decide)
      (by decide) (by decide), hs e he]
    rfl
  · intro e he
    rw [hasKey, normalTail_snap_preserve st env d (by decide) (by decide) (by decide)
      (by decide) (by decide), hset e he]
    rfl

/-- C9: every normal-poller cycle that completes without raising returns a
snapshot containing the five keys settings_inventory, metrics_inventory,
alarms, alarms_inventory and access_level — with a null inventory, the empty
alarm list, or the default access level substituted when the corresponding
fetch fails — while status and settings are absent when their fetches
fail. -/
theorem c9_snapshot_invariant (st : CoordState) (env : PollEnv)
    (snap : List (String × JVal)) (st₂ : CoordState)
    (hf : st.is_fast_coordinator = false)
    (hok : (update_data st env).2 = .ok (snap, st₂)) :
    (hasKey snap "settings_inventory" = true ∧ hasKey snap "metrics_inventory" = true ∧
     hasKey snap "alarms" = true ∧ hasKey snap "alarms_inventory" = true ∧
     hasKey snap "access_level" = true) ∧
    (∀ e, env.alarmsR = .error e →
      lookupKV snap "alarms" = some (.obj [("alarms", .arr [])])) ∧
    (∀ e, env.accessLevel = .error e →
      lookupKV snap "access_level" = some defaultAccessLevel) ∧
    (∀ e, st.settings_inventory = .null → env.settingsInventory = .error e →
      lookupKV snap "settings_inventory" = some .null) ∧
    (∀ e, st.metrics_inventory = .null → env.metricsInventory = .error e →
      lookupKV snap "metrics_inventory" = some .null) ∧
    (∀ e, st.alarms_inventory = .null → env.alarmsInventory = .error e →
      lookupKV snap "alarms_inventory" = some .null) ∧
    (∀ e, env.statusR = .error e → hasKey snap "status" = false) ∧
    (∀ e, env.settingsR = .error e → hasKey snap "settings" = false) := by
  cases hm : env.internalMetrics with
  | ok m =>
    rw [update_data_normal_ok st env m hf hm] at hok
    simp only [Except.ok.injEq, Prod.mk.injEq] at hok
    have hsnap : snap = (normalTail st env
        (setKey (headData env) "internal_metrics" (extractValues m))).2.1 :=
      (congrArg Prod.fst hok).symm
    subst hsnap
    refine snapshot_props st env _ ?_ ?_
    · intro e he
      rw [lookupKV_setKey_ne _ _ (by decide), lookupKV_headData_status_err env e he]
    · intro e he
      rw [lookupKV_setKey_ne _ _ (by decide), lookupKV_headData_settings_err env e he]
  | error e =>
    by_cases ht : transientServerError e.msg = true
    · rw [update_data_normal_err_trans st env e hf hm ht] at hok
      simp at hok
    · have ht' : transientServerError e.msg = false := by simpa using ht
      rw [update_data_normal_err_nontrans st env e hf hm ht'] at hok
      simp only [Except.ok.injEq, Prod.mk.injEq] at hok
      have hsnap : snap = (normalTail st env (headData env)).2.1 :=
        (congrArg Prod.fst hok).symm
      subst hsnap
      refine snapshot_props st env _ ?_ ?_
      · intro e2 he
        exact lookupKV_headData_status_err env e2 he
      · intro e2 he
        exact lookupKV_headData_settings_err env e2 he

/-- C9 witness: the theorem applied to a concrete cycle in which every fetch
fails — the substitutes appear and status and settings are absent. -/
theorem c9_snapshot_invariant_witness :
    ∃ snap st₂,
      (update_data { is_fast_coordinator := false, auto_elevate_enabled := false }
        { now := 0, fromIso := fun _ => none,
          preAccess := .error (.api "x"), preElevate := .ok none,
          statusR := .error (.api "x"), settingsR := .error (.api "x"),
          internalMetrics := .error (.api "not found"),
          settingsInventory := .error (.api "x"), metricsInventory := .error (.api "x"),
          alarmsR := .error (.api "x"), alarmsInventory := .error (.api "x"),
          accessLevel := .error (.api "x"), renewElevate := .ok none }).2
        = .ok (snap, st₂) ∧
      lookupKV snap "alarms" = some (.obj [("alarms", .arr [])]) ∧
      lookupKV snap "access_level" = some defaultAccessLevel ∧
      hasKey snap "status" = false := by
  refine ⟨[("settings_inventory", .null), ("metrics_inventory", .null),
    ("alarms", .obj [("alarms", .arr [])]), ("alarms_inventory", .null),
    ("access_level", defaultAccessLevel)],
    { is_fast_coordinator := false, auto_elevate_enabled := false }, rfl, ?_, ?_, ?_⟩
  · exact ((c9_snapshot_invariant
      { is_fast_coordinator := false, auto_elevate_enabled := false }
      { now := 0, fromIso := fun _ => none,
        preAccess := .error (.api "x"), preElevate := .ok none,
        statusR := .error (.api "x"), settingsR := .error (.api "x"),
        internalMetrics := .error (.api "not found"),
        settingsInventory := .error (.api "x"), metricsInventory := .error (.api "x"),
        alarmsR := .error (.api "x"), alarmsInventory := .error (.api "x"),
        accessLevel := .error (.api "x"), renewElevate := .ok none }
      _ _ rfl rfl).2.1 (.api "x") rfl)
  · exact ((c9_snapshot_invariant
      { is_fast_coordinator := false, auto_elevate_enabled := false }
      { now := 0, fromIso := fun _ => none,
        preAccess := .error (.api "x"), preElevate := .ok none,
        statusR := .error (.api "x"), settingsR := .error (.api "x"),
        internalMetrics := .error (.api "not found"),
        settingsInventory := .error (.api "x"), metricsInventory := .error (.api "x"),
        alarmsR := .error (.api "x"), alarmsInventory := .error (.api "x"),
        accessLevel := .error (.api "x"), renewElevate := .ok none }
      _ _ rfl rfl).2.2.1 (.api "x") rfl)
  · exact ((c9_snapshot_invariant
      { is_fast_coordinator := false, auto_elevate_enabled := false }
      { now := 0, fromIso := fun _ => none,
        preAccess := .error (.api "x"), preElevate := .ok none,
        statusR := .error (.api "x"), settingsR := .error (.api "x"),
        internalMetrics := .error (.api "not found"),
        settingsInventory := .error (.api "x"), metricsInventory := .error (.api "x"),
        alarmsR := .error (.api "x"), alarmsInventory := .error (.api "x"),
        accessLevel := .error (.api "x"), renewElevate := .ok none }
      _ _ rfl rfl).2.2.2.2.2.2.1 (.api "x") rfl)

theorem renewCondition_elim (st : CoordState) (env : PollEnv)
    (al : List (String × JVal)) (h : renewCondition st env al = true) :
    ∃ s t, lookupKV al "expiresAt" = some (.str s) ∧ s ≠ "" ∧
      st.auto_elevate_enabled = true ∧ env.fromIso (pyIsoReplace s) = some t ∧
      getIntD al "writeAccessLevel" 0 ≥ 20 ∧ 0 < t - env.now ∧ t - env.now < 300 := by
  cases hexp : lookupKV al "expiresAt" with
  | none => simp [renewCondition, hexp] at h
  | some v =>
    by_cases htr : (v.truthy && st.auto_elevate_enabled) = true
    · cases v with
      | str s =>
        cases hiso : env.fromIso (pyIsoReplace s) with
        | none => simp [renewCondition, hexp, htr, hiso] at h
        | some t =>
          simp [renewCondition, hexp, htr, hiso] at h
          simp [JVal.truthy] at htr
          exact ⟨s, t, rfl, htr.1, htr.2, hiso, h.1, by omega, h.2.2⟩
      | null => simp [renewCondition, hexp, htr] at h
      | bool b => simp [renewCondition, hexp, htr] at h
      | int n => simp [renewCondition, hexp, htr] at h
      | arr xs => simp [renewCondition, hexp, htr] at h
      | obj kvs => simp [renewCondition, hexp, htr] at h
    · simp [renewCondition, hexp, htr] at h

theorem renewCondition_expired (st : CoordState) (env : PollEnv)
    (al : List (String × JVal)) (s : String) (t : Int)
    (hexp : lookupKV al "expiresAt" = some (.str s))
    (hiso : env.fromIso (pyIsoReplace s) = some t) (hle : t - env.now ≤ 0) :
    renewCondition st env al = false := by
  by_cases htr : ((JVal.str s).truthy && st.auto_elevate_enabled) = true
  · simp [renewCondition, hexp, htr, hiso]
    intro _ hc
    omega
  · simp [renewCondition, hexp, htr]

theorem countElevCalls_append (a b : List ApiCall) :
    countElevCalls (a ++ b) = countElevCalls a + countElevCalls b := by
  simp [countElevCalls, List.filter_append]

theorem countElev_preElevateTrace (st : CoordState) (env : PollEnv)
    (pa : List (String × JVal)) (hpa : env.preAccess = .ok pa)
    (hpl : getIntD pa "writeAccessLevel" 0 ≥ 20) :
    countElevCalls (preElevateTrace st env) = 0 := by
  have hnot : ¬(getIntD pa "writeAccessLevel" 0 < 20) := by omega
  unfold preElevateTrace
  by_cases ha : st.auto_elevate_enabled = true
  · simp [ha, hpa, hnot, countElevCalls]
  · simp [ha, countElevCalls]

theorem countElev_update_data (st : CoordState) (env : PollEnv)
    (pa al : List (String × JVal))
    (hf : st.is_fast_coordinator = false)
    (hpa : env.preAccess = .ok pa) (hpl : getIntD pa "writeAccessLevel" 0 ≥ 20)
    (hal : env.accessLevel = .ok al) (hmt : metricsNonTransient env = true) :
    countElevCalls (update_data st env).1 =
      (if renewCondition st env al then 1 else 0) := by
  have htail : ∀ d, countElevCalls (normalTail st env d).1 =
      (if renewCondition st env al then 1 else 0) := by
    intro d
    rw [countElev_normalTail, accessLevelStep_trace st env _ al hal]
    by_cases hrc : renewCondition st env al = true
    · simp [hrc, countElevCalls]
    · simp at hrc
      simp [hrc, countElevCalls]
  cases hm : env.internalMetrics with
  | ok m =>
    rw [update_data_normal_ok st env m hf hm]
    simp only [countElevCalls_append]
    rw [countElev_preElevateTrace st env pa hpa hpl,
        htail (setKey (headData env) "internal_metrics" (extractValues m))]
    simp [countElevCalls]
  | error e =>
    have ht : transientServerError e.msg = false := by
      unfold metricsNonTransient at hmt
      rw [hm] at hmt
      simpa using hmt
    rw [update_data_normal_err_nontrans st env e hf hm ht]
    simp only [countElevCalls_append]
    rw [countElev_preElevateTrace st env pa hpa hpl, htail (headData env)]
    simp [countElevCalls]

theorem normalTail_access_norenew (st : CoordState) (env : PollEnv)
    (d : List (String × JVal)) (al : List (String × JVal))
    (hal : env.accessLevel = .ok al) (hrc : renewCondition st env al = false) :
    lookupKV (normalTail st env d).2.1 "access_level" = some (.obj al) := by
  rw [normalTail_eq]
  simp only []
  rw [accessLevelStep_no_renew st env _ al hal hrc, lookupKV_setKey_self]

/-- C8: with auto-elevate enabled, the proactive re-elevation of the final
access-level step runs only when the fetched level carries a truthy (hence
non-null) expiresAt that parses, writeAccessLevel is still at least 20, and
the time to expiry is strictly between 0 and 300 seconds; in particular,
when the grant has already expired (parse result at or before now) no
renewal is attempted and the cycle completes with the fetched access level
stored unchanged.  (The step-1 pre-check is kept silent by an already
elevated pre-fetch so that every elevation call in the trace belongs to the
final step.) -/
theorem c8_renewal_window (st : CoordState) (env : PollEnv)
    (pa al : List (String × JVal))
    (hf : st.is_fast_coordinator = false) (_hauto : st.auto_elevate_enabled = true)
    (hpa : env.preAccess = .ok pa) (hpl : getIntD pa "writeAccessLevel" 0 ≥ 20)
    (hal : env.accessLevel = .ok al) (hmt : metricsNonTransient env = true) :
    (countElevCalls (update_data st env).1 ≥ 1 →
      ∃ s t, lookupKV al "expiresAt" = some (.str s) ∧ s ≠ "" ∧
        env.fromIso (pyIsoReplace s) = some t ∧
        getIntD al "writeAccessLevel" 0 ≥ 20 ∧ 0 < t - env.now ∧ t - env.now < 300) ∧
    (∀ s t, lookupKV al "expiresAt" = some (.str s) →
      env.fromIso (pyIsoReplace s) = some t → t - env.now ≤ 0 →
      countElevCalls (update_data st env).1 = 0 ∧
      ∃ snap st₂, (update_data st env).2 = .ok (snap, st₂) ∧
        lookupKV snap "access_level" = some (.obj al)) := by
  have hcount := countElev_update_data st env pa al hf hpa hpl hal hmt
  constructor
  · intro hge
    rw [hcount] at hge
    by_cases hrc : renewCondition st env al = true
    · obtain ⟨s, t, hexp, hne, _, hiso, hwal, hpos, hlt⟩ :=
        renewCondition_elim st env al hrc
      exact ⟨s, t, hexp, hne, hiso, hwal, hpos, hlt⟩
    · simp [hrc] at hge
  · intro s t hexp hiso hle
    have hrc := renewCondition_expired st env al s t hexp hiso hle
    refine ⟨by rw [hcount, hrc]; rfl, ?_⟩
    cases hm : env.internalMetrics with
    | ok m =>
      rw [update_data_normal_ok st env m hf hm]
      exact ⟨(normalTail st env
        (setKey (headData env) "internal_metrics" (extractValues m))).2.1,
        (normalTail st env
        (setKey (headData env) "internal_metrics" (extractValues m))).2.2, rfl,
        normalTail_access_norenew st env _ al hal hrc⟩
    | error e =>
      have ht : transientServerError e.msg = false := by
        unfold metricsNonTransient at hmt
        rw [hm] at hmt
        simpa using hmt
      rw [update_data_normal_err_nontrans st env e hf hm ht]
      exact ⟨(normalTail st env (headData env)).2.1,
        (normalTail st env (headData env)).2.2, rfl,
        normalTail_access_norenew st env _ al hal hrc⟩

/-- C8 witness: the theorem applied to a concrete cycle whose fetched grant
expired 100 seconds ago — no elevation call occurs. -/
theorem c8_renewal_window_witness :
    countElevCalls ((update_data { is_fast_coordinator := false, auto_elevate_enabled := true }
      { now := 1000, fromIso := fun _ => some 900,
        preAccess := .ok [("writeAccessLevel", .int 30)], preElevate := .ok none,
        statusR := .error (.api "x"), settingsR := .error (.api "x"),
        internalMetrics := .error (.api "not found"),
        settingsInventory := .error (.api "x"), metricsInventory := .error (.api "x"),
        alarmsR := .error (.api "x"), alarmsInventory := .error (.api "x"),
        accessLevel := .ok [("writeAccessLevel", .int 30),
          ("expiresAt", .str "2025-10-12T00:15:00Z")],
        renewElevate := .ok (some [("writeAccessLevel", .int 30)]) }).1) = 0 := by
  exact ((c8_renewal_window { is_fast_coordinator := false, auto_elevate_enabled := true }
    { now := 1000, fromIso := fun _ => some 900,
      preAccess := .ok [("writeAccessLevel", .int 30)], preElevate := .ok none,
      statusR := .error (.api "x"), settingsR := .error (.api "x"),
      internalMetrics := .error (.api "not found"),
      settingsInventory := .error (.api "x"), metricsInventory := .error (.api "x"),
      alarmsR := .error (.api "x"), alarmsInventory := .error (.api "x"),
      accessLevel := .ok [("writeAccessLevel", .int 30),
        ("expiresAt", .str "2025-10-12T00:15:00Z")],
      renewElevate := .ok (some [("writeAccessLevel", .int 30)]) }
    [("writeAccessLevel", .int 30)]
    [("writeAccessLevel", .int 30), ("expiresAt", .str "2025-10-12T00:15:00Z")]
    rfl rfl rfl (by decide) rfl rfl).2 "2025-10-12T00:15:00Z" 900 rfl rfl
    (by decide)).1

/-- C2: when the command response marks the requested setting permission
denied, set_setting makes exactly one elevation attempt; when elevation
returns a truthy access level the identical payload is posted exactly once
more (the trace is exactly post, elevate, post — a second denial in the
retried response causes no further call) and the second response is
returned; when elevation returns a falsy result the original denial
response is returned with no retry. -/
theorem c2_permission_denied_retry (env : SetSettingEnv) (setting : String) (value : JVal)
    (resp : JVal) (hp : env.post1 = .ok resp) (hd : denialFor resp setting = true) :
    countElevate (set_setting env setting value).1 = 1 ∧
    (∀ r, env.elevateOutcome = .ok r → elevSuccess r = true →
      (set_setting env setting value).1 =
        [.postCommand (set_setting_payload setting value), .elevate,
         .postCommand (set_setting_payload setting value)] ∧
      (set_setting env setting value).2 = env.post2) ∧
    (∀ r, env.elevateOutcome = .ok r → elevSuccess r = false →
      (set_setting env setting value).1 =
        [.postCommand (set_setting_payload setting value), .elevate] ∧
      (set_setting env setting value).2 = .ok resp) := by
  refine ⟨?_, ?_, ?_⟩
  · cases heo : env.elevateOutcome with
    | ok r =>
      by_cases hs : elevSuccess r = true
      · simp [set_setting, hp, hd, heo, hs, countElevate]
      · simp [set_setting, hp, hd, heo, hs, countElevate]
    | error e => simp [set_setting, hp, hd, heo, countElevate]
  · intro r heo hs
    constructor
    · simp [set_setting, hp, hd, heo, hs]
    · simp [set_setting, hp, hd, heo, hs]
  · intro r heo hs
    constructor
    · simp [set_setting, hp, hd, heo, hs]
    · simp [set_setting, hp, hd, heo, hs]

/-- C2 witness: a concrete denial response followed by a successful
elevation and a second denial — the trace is exactly post, elevate, post. -/
theorem c2_permission_denied_retry_witness :
    countElevate (set_setting
      { post1 := .ok (.obj [("response", .obj [("dhw_set", .str "permission denied")])]),
        elevateOutcome := .ok (some [("writeAccessLevel", .int 30)]),
        post2 := .ok (.obj [("response", .obj [("dhw_set", .str "permission denied")])]) }
      "dhw_set" (.str "5")).1 = 1 ∧
    (set_setting
      { post1 := .ok (.obj [("response", .obj [("dhw_set", .str "permission denied")])]),
        elevateOutcome := .ok (some [("writeAccessLevel", .int 30)]),
        post2 := .ok (.obj [("response", .obj [("dhw_set", .str "permission denied")])]) }
      "dhw_set" (.str "5")).1 =
      [.postCommand (set_setting_payload "dhw_set" (.str "5")), .elevate,
       .postCommand (set_setting_payload "dhw_set" (.str "5"))] := by
  refine ⟨?_, ?_⟩
  · exact (c2_permission_denied_retry
      { post1 := .ok (.obj [("response", .obj [("dhw_set", .str "permission denied")])]),
        elevateOutcome := .ok (some [("writeAccessLevel", .int 30)]),
        post2 := .ok (.obj [("response", .obj [("dhw_set", .str "permission denied")])]) }
      "dhw_set" (.str "5")
      (.obj [("response", .obj [("dhw_set", .str "permission denied")])]) rfl rfl).1
  · exact ((c2_permission_denied_retry
      { post1 := .ok (.obj [("response", .obj [("dhw_set", .str "permission denied")])]),
        elevateOutcome := .ok (some [("writeAccessLevel", .int 30)]),
        post2 := .ok (.obj [("response", .obj [("dhw_set", .str "permission denied")])]) }
      "dhw_set" (.str "5")
      (.obj [("response", .obj [("dhw_set", .str "permission denied")])]) rfl rfl).2.1
      (some [("writeAccessLevel", .int 30)]) rfl rfl).1

/-- C4: elevate_access with an initial writeAccessLevel >= 20 issues exactly
one network call (the level fetch) and no code generation, returning that
level unchanged; with an initial level < 20 and all three handshake
sub-steps succeeding, exactly the five calls level-fetch, generate, claim,
approve, confirmation-fetch occur in that order; a failure at any sub-step
(generation error, missing or falsy access code, claim failure, approval
failure) aborts with a None result and no further handshake call. -/
theorem c4_elevation_handshake (env : ElevateEnv) :
    (∀ a, env.accessLevel1 = .ok a → getIntD a "writeAccessLevel" 0 ≥ 20 →
      elevate_access env = ([.getAccessLevel], .ok (some a))) ∧
    (∀ a c ac u, env.accessLevel1 = .ok a → getIntD a "writeAccessLevel" 0 < 20 →
      env.generateCode = .ok c → c.isEmpty = false →
      lookupKV c "accessCode" = some ac → ac.truthy = true →
      isOkE env.claimGrant = true → isOkE env.approveAccess = true →
      env.accessLevel2 = .ok u →
      elevate_access env = ([.getAccessLevel, .generateAccessCode, .claimGrant,
        .approveAccess, .getAccessLevel], .ok (some u))) ∧
    (∀ a, env.accessLevel1 = .ok a → getIntD a "writeAccessLevel" 0 < 20 →
      (isOkE env.generateCode = false →
        elevate_access env = ([.getAccessLevel, .generateAccessCode], .ok none)) ∧
      (∀ c, env.generateCode = .ok c →
        (c.isEmpty = true ∨ lookupKV c "accessCode" = none ∨
          (∃ ac, lookupKV c "accessCode" = some ac ∧ ac.truthy = false)) →
        elevate_access env = ([.getAccessLevel, .generateAccessCode], .ok none)) ∧
      (∀ c ac, env.generateCode = .ok c → c.isEmpty = false →
        lookupKV c "accessCode" = some ac → ac.truthy = true →
        isOkE env.claimGrant = false →
        elevate_access env =
          ([.getAccessLevel, .generateAccessCode, .claimGrant], .ok none)) ∧
      (∀ c ac, env.generateCode = .ok c → c.isEmpty = false →
        lookupKV c "accessCode" = some ac → ac.truthy = true →
        isOkE env.claimGrant = true → isOkE env.approveAccess = false →
        elevate_access env = ([.getAccessLevel, .generateAccessCode, .claimGrant,
          .approveAccess], .ok none))) := by
  refine ⟨?_, ?_, ?_⟩
  · intro a ha hge
    simp [elevate_access, ha, hge]
  · intro a c ac u ha hlt hc hce hac hact hclaim happrove hu
    have hnot : ¬(getIntD a "writeAccessLevel" 0 ≥ 20) := by omega
    cases hcg : env.claimGrant with
    | ok x =>
      cases hap : env.approveAccess with
      | ok y => simp [elevate_access, ha, hnot, hc, hce, hac, hact, hcg, hap, hu]
      | error e => rw [hap] at happrove; simp [isOkE] at happrove
    | error e => rw [hcg] at hclaim; simp [isOkE] at hclaim
  · intro a ha hlt
    have hnot : ¬(getIntD a "writeAccessLevel" 0 ≥ 20) := by omega
    refine ⟨?_, ?_, ?_, ?_⟩
    · intro hgen
      cases hcg : env.generateCode with
      | ok c => rw [hcg] at hgen; simp [isOkE] at hgen
      | error e => simp [elevate_access, ha, hnot, hcg]
    · intro c hc hbad
      rcases hbad with hce | hnone | ⟨ac, hac, hfalsy⟩
      · simp [elevate_access, ha, hnot, hc, hce]
      · simp [elevate_access, ha, hnot, hc, hnone]
      · by_cases hce : c.isEmpty = true
        · simp [elevate_access, ha, hnot, hc, hce]
        · simp only [Bool.not_eq_true] at hce
          simp [elevate_access, ha, hnot, hc, hce, hac, hfalsy]
    · intro c ac hc hce hac hact hclaim
      cases hcg : env.claimGrant with
      | ok x => rw [hcg] at hclaim; simp [isOkE] at hclaim
      | error e => simp [elevate_access, ha, hnot, hc, hce, hac, hact, hcg]
    · intro c ac hc hce hac hact hclaim happrove
      cases hcg : env.claimGrant with
      | ok x =>
        cases hap : env.approveAccess with
        | ok y => rw [hap] at happrove; simp [isOkE] at happrove
        | error e => simp [elevate_access, ha, hnot, hc, hce, hac, hact, hcg, hap]
      | error e => rw [hcg] at hclaim; simp [isOkE] at hclaim

/-- C4 witness: the theorem applied to a concrete already-elevated level
(one call) and to a concrete full handshake (five calls in order). -/
theorem c4_elevation_handshake_witness :
    elevate_access
      { accessLevel1 := .ok [("writeAccessLevel", .int 30)],
        generateCode := .error (.api "x"), claimGrant := .error (.api "x"),
        approveAccess := .error (.api "x"), accessLevel2 := .error (.api "x") }
      = ([.getAccessLevel], .ok (some [("writeAccessLevel", .int 30)])) ∧
    elevate_access
      { accessLevel1 := .ok [("writeAccessLevel", .int 10)],
        generateCode := .ok [("accessCode", .str "xyz")],
        claimGrant := .ok (.obj []), approveAccess := .ok (.obj []),
        accessLevel2 := .ok [("writeAccessLevel", .int 30)] }
      = ([.getAccessLevel, .generateAccessCode, .claimGrant, .approveAccess,
          .getAccessLevel], .ok (some [("writeAccessLevel", .int 30)])) := by
  refine ⟨?_, ?_⟩
  · exact (c4_elevation_handshake
      { accessLevel1 := .ok [("writeAccessLevel", .int 30)],
        generateCode := .error (.api "x"), claimGrant := .error (.api "x"),
        approveAccess := .error (.api "x"), accessLevel2 := .error (.api "x") }).1
      [("writeAccessLevel", .int 30)] rfl (by decide)
  · exact (c4_elevation_handshake
      { accessLevel1 := .ok [("writeAccessLevel", .int 10)],
        generateCode := .ok [("accessCode", .str "xyz")],
        claimGrant := .ok (.obj []), approveAccess := .ok (.obj []),
        accessLevel2 := .ok [("writeAccessLevel", .int 30)] }).2.1
      [("writeAccessLevel", .int 10)] [("accessCode", .str "xyz")] (.str "xyz")
      [("writeAccessLevel", .int 30)] rfl (by decide) rfl rfl rfl rfl rfl rfl rfl

end Qvantum
